import Mathlib

/-!
Verification of `charmcraft/commands/store/client.py`: a shallow embedding of
the store client (user-agent builder, URL-normalizing constructor, error
translation in `request`/`request_json`, and the streaming `push_file`
pipeline), together with theorems settling the specified properties.

External effects (the environment snapshot, OS/platform introspection, the
authenticated session collaborator, the filesystem open, and the HTTP POST)
are passed in as explicit values, so every definition is executable.
-/

namespace StoreClient

/-- Python exception values that can flow through this module, each carrying
the data the source code observes about it. -/
inductive PyExc where
  | commandError (msg : String)
  | storeClientError (msg : String)
  | jsonDecodeError (msg : String)
  | keyError (key : String)
  | typeError (msg : String)
  | zeroDivisionError
  | osError (msg : String)
  deriving DecidableEq, Repr

/-- JSON values, as produced by decoding a response body. -/
inductive Json where
  | null
  | bool (b : Bool)
  | num (n : Int)
  | str (s : String)
  | arr (xs : List Json)
  | obj (fields : List (String × Json))
  deriving Repr

/-- Association-list lookup used for dict subscripting (first binding wins,
matching Python dicts built from unique JSON keys). -/
def lookupField : List (String × Json) → String → Option Json
  | [], _ => none
  | (k, v) :: rest, key => if k = key then some v else lookupField rest key

/-- Python subscripting `value[key]` with a string key: a dict yields the
bound value or raises `KeyError`; every non-dict raises `TypeError`. -/
def Json.getItem : Json → String → Except PyExc Json
  | .obj fields, key =>
      match lookupField fields key with
      | some v => .ok v
      | none => .error (.keyError key)
  | _, _ => .error (.typeError "value is not subscriptable by a string key")

/-- Python truthiness of a decoded JSON value (`bool(value)`). -/
def Json.truthy : Json → Bool
  | .null => false
  | .bool b => b
  | .num n => n != 0
  | .str s => s != ""
  | .arr xs => !xs.isEmpty
  | .obj fields => !fields.isEmpty

/-- Python `str(value)` / `"...".format(value)` rendering of a decoded JSON
value (dict/list repr; quoting of strings elided to the quote character). -/
def Json.pyRepr : Json → String
  | .null => "None"
  | .bool true => "True"
  | .bool false => "False"
  | .num n => toString n
  | .str s => "\x27" ++ s ++ "\x27"
  | .arr xs =>
      "[" ++ String.intercalate ", " (xs.attach.map (fun x => Json.pyRepr x.1)) ++ "]"
  | .obj fields =>
      "\x7b" ++
        String.intercalate ", "
          (fields.attach.map (fun f => "\x27" ++ f.1.1 ++ "\x27: " ++ Json.pyRepr f.1.2)) ++
        "\x7d"
  decreasing_by
  · have h := List.sizeOf_lt_of_mem x.2
    simp only [Json.arr.sizeOf_spec]
    omega
  · obtain ⟨⟨a, b⟩, hmem⟩ := f
    have h := List.sizeOf_lt_of_mem hmem
    simp only [Prod.mk.sizeOf_spec] at h
    simp only [Json.obj.sizeOf_spec]
    omega

/-- An HTTP response as the source observes it: its status code and, when the
body is valid JSON, the decoded value (`none` models an unparseable body). -/
structure Response where
  status_code : Nat
  jsonBody : Option Json

/-- `response.json()`: the decoded body, or `JSONDecodeError` when the body is
not valid JSON. -/
def Response.json (r : Response) : Except PyExc Json :=
  match r.jsonBody with
  | some j => .ok j
  | none => .error (.jsonDecodeError "Expecting value")

/-- `TESTING_ENV_PREFIXES = ["TRAVIS", "AUTOPKGTEST_TMP"]`. -/
def TESTING_ENV_PREFIXES : List String := ["TRAVIS", "AUTOPKGTEST_TMP"]

/-- Python `key.startswith(p)`: `p`'s characters are an initial segment of
`key`'s. -/
def startswith (key p : String) : Bool := p.toList.isPrefixOf key.toList

/-- OS/platform facts read by `build_user_agent` via `utils.get_os_platform()`
and `platform.python_version()`; passed in explicitly. -/
structure PlatformFacts where
  system : String
  release : String
  machine : String
  pythonVersion : String

/-- `"{0.system}/{0.release} ({0.machine})".format(utils.get_os_platform())`. -/
def os_platform_str (pf : PlatformFacts) : String :=
  pf.system ++ "/" ++ pf.release ++ " (" ++ pf.machine ++ ")"

/-- The `any(key.startswith(p) for p in TESTING_ENV_PREFIXES for key in
os.environ.keys())` scan of the environment snapshot. -/
def hasTestingKey (envKeys : List String) : Bool :=
  TESTING_ENV_PREFIXES.any (fun p => envKeys.any (fun key => startswith key p))

/-- `build_user_agent()`: the environment snapshot (its key names), the
charmcraft version and the platform facts are its external reads. -/
def build_user_agent (envKeys : List String) (version : String) (pf : PlatformFacts) :
    String :=
  let testing := if hasTestingKey envKeys then " (testing) " else " "
  "charmcraft/" ++ version ++ testing ++ os_platform_str pf ++ " python/" ++
    pf.pythonVersion

/-- Python `s.rstrip("/")`: remove every trailing slash character. -/
def rstripSlash (s : String) : String :=
  String.mk ((s.toList.reverse.dropWhile (fun x => x == Char.ofNat 47)).reverse)

/-- The state `Client.__init__` establishes: both base URLs normalized by
`rstrip("/")`, the credentials config path resolved via `appdirs`
(passed in as `userConfigDir`), and the user agent handed to the session
collaborator (`craft_store.StoreClient`). -/
structure Client where
  storage_base_url : String
  session_base_url : String
  config_path : String
  session_user_agent : String

/-- `Client(api_base_url, storage_base_url)`. -/
def Client.init (api_base_url storage_base_url_arg : String) (userConfigDir : String)
    (envKeys : List String) (version : String) (pf : PlatformFacts) : Client :=
  { storage_base_url := rstripSlash storage_base_url_arg
    session_base_url := rstripSlash api_base_url
    config_path := userConfigDir
    session_user_agent := build_user_agent envKeys version pf }

/-- `Client.request`: delegates to `super().request(...)` (whose outcome is
passed in as `superResult`); `craft_store.errors.StoreClientError` is caught
and re-raised as `CommandError(str(store_error))`; everything else flows
through untouched. -/
def Client.request (superResult : Except PyExc Response) : Except PyExc Response :=
  match superResult with
  | .error (.storeClientError msg) => .error (.commandError msg)
  | other => other

/-- `Client.request_json`: calls `request`, then `response.json()`, turning a
`JSONDecodeError` into a `CommandError` that cites the status code. -/
def Client.request_json (superResult : Except PyExc Response) : Except PyExc Json :=
  match Client.request superResult with
  | .error e => .error e
  | .ok response =>
      match response.json with
      | .ok j => .ok j
      | .error (.jsonDecodeError _) =>
          .error (.commandError
            ("Could not retrieve json response (" ++ toString response.status_code ++
              " from request"))
      | .error e => .error e

/-- The per-chunk callback `_progress(monitor)` inside `push_file`: reads
`monitor.bytes_read` and `monitor.len`. It returns the progress percentage
printed for this chunk (`none` when the guard suppresses the update), or the
`ZeroDivisionError` Python would raise on a zero total length. Python's true
division of integers is modeled exactly over `ℚ` (the division
`100 * bytes_read / len` at `bytes_read = len` is exact in floats too). -/
def progressCallback (bytes_read length : Nat) : Except PyExc (Option ℚ) :=
  if bytes_read ≤ length then
    if length = 0 then .error .zeroDivisionError
    else .ok (some (100 * (bytes_read : ℚ) / (length : ℚ)))
  else .ok none

/-- The `MultipartEncoder(fields={"binary": (filepath.name, fh,
"application/octet-stream")})` value: its single field, and the
boundary-bearing `content_type` the library generates. -/
structure MultipartEncoder where
  fieldName : String
  fileName : String
  fileContentType : String
  content_type : String

/-- The one HTTP POST `_storage_push` issues, as observed on the wire: target
URL, the two explicit headers, the session user agent, and the name of the
single multipart body field. -/
structure HttpPostReq where
  url : String
  contentType : String
  accept : String
  userAgent : String
  fieldName : String
  deriving DecidableEq, Repr

/-- Observable resource/network events of one `push_file` call. -/
inductive Ev where
  | openFile
  | post (req : HttpPostReq)
  | closeFile
  deriving DecidableEq, Repr

/-- `_storage_push(monitor, storage_base_url)`: builds the URL and headers,
issues the POST (its transport outcome is passed in as `postResult`), and
calls `.json()` on the response. Returns the request it sent together with
the decoded outcome. -/
def storage_push (monitorContentType fieldName storage_base_url : String)
    (envKeys : List String) (version : String) (pf : PlatformFacts)
    (postResult : Except PyExc Response) : HttpPostReq × Except PyExc Json :=
  let url := storage_base_url ++ "/unscanned-upload/"
  let req : HttpPostReq :=
    { url := url
      contentType := monitorContentType
      accept := "application/json"
      userAgent := build_user_agent envKeys version pf
      fieldName := fieldName }
  (req,
    match postResult with
    | .error e => .error e
    | .ok r => r.json)

/-- The tail of `push_file` after the `with` block: `result["successful"]`
truthiness check, `CommandError` on a falsy value, then `result["upload_id"]`. -/
def handleStorageResponse (result : Json) : Except PyExc Json :=
  match result.getItem "successful" with
  | .error e => .error e
  | .ok s =>
      if s.truthy then
        match result.getItem "upload_id" with
        | .error e => .error e
        | .ok upload_id => .ok upload_id
      else
        .error (.commandError ("Server error while pushing file: " ++ result.pyRepr))

/-- `Client.push_file(filepath)`: opens the file (outcome `openResult`),
builds the multipart encoder and monitor, runs `_storage_push` inside the
`with` block (the POST transport outcome is `postResult`), closes the file on
exit from the block, and handles the decoded response. Returns the Python
result (`upload_id` value or exception) paired with the ordered event trace. -/
def Client.push_file (c : Client) (envKeys : List String) (version : String)
    (pf : PlatformFacts) (fileName : String) (boundaryContentType : String)
    (openResult : Except PyExc Unit) (postResult : Except PyExc Response) :
    Except PyExc Json × List Ev :=
  match openResult with
  | .error e => (.error e, [])
  | .ok _ =>
      let encoder : MultipartEncoder :=
        { fieldName := "binary"
          fileName := fileName
          fileContentType := "application/octet-stream"
          content_type := boundaryContentType }
      let pushed :=
        storage_push encoder.content_type encoder.fieldName c.storage_base_url
          envKeys version pf postResult
      let events := [Ev.openFile, Ev.post pushed.1, Ev.closeFile]
      match pushed.2 with
      | .error e => (.error e, events)
      | .ok response => (handleStorageResponse response, events)

/-- Sample platform facts used to instantiate witnesses. -/
def samplePF : PlatformFacts :=
  { system := "Linux", release := "5.4.0", machine := "x86_64", pythonVersion := "3.8.10" }

/-- Sample client used to instantiate witnesses. -/
def sampleClient : Client :=
  Client.init "https://api.charmhub.io/" "https://storage.example.com//" "cfgdir"
    [ "HOME", "PATH" ] "1.2.0" samplePF

/-- Sample successful storage response payload. -/
def sampleOkJson : Json :=
  .obj [("successful", .bool true), ("upload_id", .str "abc123")]

/-- Sample rejected storage response payload. -/
def sampleFailJson : Json :=
  .obj [("successful", .bool false), ("reason", .str "quota")]

theorem string_append_assoc4 (a b c d e : String) :
    a ++ b ++ c ++ d ++ e = a ++ (b ++ (c ++ (d ++ e))) := by
  simp [String.append_assoc]

theorem list_takeWhile_eq_replicate (c : Char) (l : List Char) :
    l.takeWhile (fun x => x == c) =
      List.replicate (l.takeWhile (fun x => x == c)).length c := by
  induction l with
  | nil => rfl
  | cons x xs ih =>
      by_cases h : x = c
      · subst h
        rw [List.takeWhile_cons]
        simp only [beq_self_eq_true, if_true]
        rw [List.length_cons, List.replicate_succ]
        exact congrArg (List.cons _) ih
      · simp [List.takeWhile_cons, h]

theorem head_of_dropWhile_not (p : Char → Bool) (l : List Char) (a : Char)
    (h : (l.dropWhile p).head? = some a) : p a = false := by
  induction l with
  | nil => simp [List.dropWhile] at h
  | cons x xs ih =>
      rw [List.dropWhile_cons] at h
      by_cases hp : p x
      · rw [if_pos hp] at h
        exact ih h
      · rw [if_neg hp] at h
        simp at h
        subst h
        exact Bool.eq_false_iff.mpr hp

theorem rstripSlash_spec (s : String) :
    (∃ k, s.toList = (rstripSlash s).toList ++ List.replicate k (Char.ofNat 47))
    ∧ (rstripSlash s).toList.getLast? ≠ some (Char.ofNat 47) := by
  have htl : (rstripSlash s).toList =
      (s.toList.reverse.dropWhile (fun x => x == Char.ofNat 47)).reverse := rfl
  constructor
  · refine ⟨(s.toList.reverse.takeWhile (fun x => x == Char.ofNat 47)).length, ?_⟩
    rw [htl]
    conv_lhs => rw [← s.toList.reverse_reverse,
      ← List.takeWhile_append_dropWhile (fun x => x == Char.ofNat 47) s.toList.reverse]
    rw [List.reverse_append]
    congr 1
    rw [list_takeWhile_eq_replicate (Char.ofNat 47) s.toList.reverse,
      List.reverse_replicate, List.length_replicate]
  · rw [htl, List.getLast?_reverse]
    intro hcon
    have h2 : (Char.ofNat 47 == Char.ofNat 47) = false :=
      head_of_dropWhile_not (fun x => x == Char.ofNat 47) s.toList.reverse _ hcon
    rw [beq_self_eq_true] at h2
    exact Bool.noConfusion h2

theorem hasTestingKey_iff (envKeys : List String) :
    hasTestingKey envKeys = true ↔
      ∃ key ∈ envKeys, ∃ p ∈ TESTING_ENV_PREFIXES, startswith key p = true := by
  simp only [hasTestingKey, List.any_eq_true]
  tauto

/-- C6: with an environment key starting with a recognized test-harness
prefix, `build_user_agent()` contains the literal `" (testing) "`; without
one, the output has a single space in that position. -/
theorem build_user_agent_testing_marker (envKeys : List String) (version : String)
    (pf : PlatformFacts) :
    ((∃ key ∈ envKeys, ∃ p ∈ TESTING_ENV_PREFIXES, startswith key p = true) →
        ∃ pre post,
          build_user_agent envKeys version pf = pre ++ " (testing) " ++ post)
    ∧ (¬ (∃ key ∈ envKeys, ∃ p ∈ TESTING_ENV_PREFIXES, startswith key p = true) →
        build_user_agent envKeys version pf =
          "charmcraft/" ++ version ++ " " ++ os_platform_str pf ++ " python/" ++
            pf.pythonVersion) := by
  constructor
  · intro hex
    have ht : hasTestingKey envKeys = true := (hasTestingKey_iff envKeys).mpr hex
    refine ⟨"charmcraft/" ++ version,
      os_platform_str pf ++ " python/" ++ pf.pythonVersion, ?_⟩
    simp [build_user_agent, ht, String.append_assoc]
  · intro hnone
    have ht : hasTestingKey envKeys = false :=
      Bool.eq_false_iff.mpr (fun hc => hnone ((hasTestingKey_iff envKeys).mp hc))
    simp [build_user_agent, ht]

theorem build_user_agent_testing_marker_witness :
    (∃ key ∈ (["TRAVIS_JOB", "HOME"] : List String), ∃ p ∈ TESTING_ENV_PREFIXES,
        startswith key p = true)
    ∧ (∃ pre post,
        build_user_agent ["TRAVIS_JOB", "HOME"] "1.2.0" samplePF =
          pre ++ " (testing) " ++ post)
    ∧ (¬ (∃ key ∈ (["HOME", "PATH"] : List String), ∃ p ∈ TESTING_ENV_PREFIXES,
        startswith key p = true))
    ∧ build_user_agent ["HOME", "PATH"] "1.2.0" samplePF =
        "charmcraft/" ++ "1.2.0" ++ " " ++ os_platform_str samplePF ++ " python/" ++
          samplePF.pythonVersion := by
  have h1 : ∃ key ∈ (["TRAVIS_JOB", "HOME"] : List String),
      ∃ p ∈ TESTING_ENV_PREFIXES, startswith key p = true := by decide
  have h2 : ¬ (∃ key ∈ (["HOME", "PATH"] : List String),
      ∃ p ∈ TESTING_ENV_PREFIXES, startswith key p = true) := by decide
  exact ⟨h1, (build_user_agent_testing_marker ["TRAVIS_JOB", "HOME"] "1.2.0" samplePF).1 h1,
    h2, (build_user_agent_testing_marker ["HOME", "PATH"] "1.2.0" samplePF).2 h2⟩

/-- C5: the chunk progress callback computes exactly 100 when
`bytes_read = len` (for the positive multipart body length), emits nothing on
an overshooting chunk (`bytes_read > len`), and never emits a value above
100. -/
theorem progress_callback_bounded (bytes_read length : Nat) :
    (0 < length → bytes_read = length →
        progressCallback bytes_read length = .ok (some 100))
    ∧ (length < bytes_read → progressCallback bytes_read length = .ok none)
    ∧ (∀ q : ℚ, progressCallback bytes_read length = .ok (some q) → q ≤ 100) := by
  refine ⟨?_, ?_, ?_⟩
  · intro hpos heq
    subst heq
    have hne : (bytes_read : ℚ) ≠ 0 := Nat.cast_ne_zero.mpr (Nat.pos_iff_ne_zero.mp hpos)
    rw [progressCallback, if_pos (le_refl _), if_neg (Nat.pos_iff_ne_zero.mp hpos),
      mul_div_assoc, div_self hne, mul_one]
  · intro hlt
    rw [progressCallback, if_neg (Nat.not_le.mpr hlt)]
  · intro q h
    rw [progressCallback] at h
    by_cases hle : bytes_read ≤ length
    · rw [if_pos hle] at h
      by_cases h0 : length = 0
      · rw [if_pos h0] at h
        exact absurd h (by simp)
      · rw [if_neg h0] at h
        have hq : 100 * (bytes_read : ℚ) / (length : ℚ) = q := by
          simpa using h
        have hlpos : (0 : ℚ) < (length : ℚ) :=
          Nat.cast_pos.mpr (Nat.pos_of_ne_zero h0)
        rw [← hq, div_le_iff₀ hlpos]
        have hc : (bytes_read : ℚ) ≤ (length : ℚ) := Nat.cast_le.mpr hle
        nlinarith
    · rw [if_neg hle] at h
      exact absurd h (by simp)

theorem progress_callback_bounded_witness :
    (0 < 4 ∧ progressCallback 4 4 = .ok (some 100))
    ∧ (4 < 7 ∧ progressCallback 7 4 = .ok none)
    ∧ (progressCallback 3 4 = .ok (some (75 : ℚ)) ∧ (75 : ℚ) ≤ 100) := by
  refine ⟨⟨by decide, (progress_callback_bounded 4 4).1 (by decide) rfl⟩,
    ⟨by decide, (progress_callback_bounded 7 4).2.1 (by decide)⟩,
    ⟨?_, (progress_callback_bounded 3 4).2.2 75 ?_⟩⟩ <;>
  · rw [progressCallback]
    norm_num

/-- C3: a response whose body is not valid JSON makes `request_json` fail
with a `CommandError` whose message contains the HTTP status code, and the
raw `JSONDecodeError` never escapes to the caller. -/
theorem request_json_unparseable_body (r : Response) (hbody : r.jsonBody = none) :
    Client.request_json (.ok r) =
      .error (.commandError ("Could not retrieve json response (" ++
        toString r.status_code ++ " from request"))
    ∧ (∃ pre post,
        "Could not retrieve json response (" ++ toString r.status_code ++
            " from request" =
          pre ++ toString r.status_code ++ post)
    ∧ ∀ m, Client.request_json (.ok r) ≠ .error (.jsonDecodeError m) := by
  have hrun : Client.request_json (.ok r) =
      .error (.commandError ("Could not retrieve json response (" ++
        toString r.status_code ++ " from request")) := by
    simp only [Client.request_json, Client.request, Response.json, hbody]
  refine ⟨hrun, ⟨"Could not retrieve json response (", " from request", rfl⟩, ?_⟩
  intro m hcon
  rw [hrun] at hcon
  simp at hcon

theorem request_json_unparseable_body_witness :
    (Response.jsonBody ⟨503, none⟩ = none)
    ∧ Client.request_json (.ok ⟨503, none⟩) =
        .error (.commandError ("Could not retrieve json response (" ++
          toString (503 : Nat) ++ " from request"))
    ∧ ∀ m, Client.request_json (.ok ⟨503, none⟩) ≠ .error (.jsonDecodeError m) :=
  ⟨rfl, (request_json_unparseable_body ⟨503, none⟩ rfl).1,
    (request_json_unparseable_body ⟨503, none⟩ rfl).2.2⟩

/-- C4: `Client.request` re-raises a `StoreClientError` from the session
collaborator as a `CommandError` carrying the original message; any other
error propagates untouched, and successful responses pass through. -/
theorem request_error_translation (superResult : Except PyExc Response) :
    (∀ msg, superResult = .error (.storeClientError msg) →
        Client.request superResult = .error (.commandError msg))
    ∧ (∀ e, superResult = .error e → (∀ msg, e ≠ .storeClientError msg) →
        Client.request superResult = .error e)
    ∧ (∀ r, superResult = .ok r → Client.request superResult = .ok r) := by
  refine ⟨?_, ?_, ?_⟩
  · rintro msg rfl
    rfl
  · rintro e rfl hne
    cases e with
    | storeClientError m => exact absurd rfl (hne m)
    | commandError m => rfl
    | jsonDecodeError m => rfl
    | keyError k => rfl
    | typeError m => rfl
    | zeroDivisionError => rfl
    | osError m => rfl
  · rintro r rfl
    rfl

theorem request_error_translation_witness :
    ((.error (.storeClientError "auth failed") : Except PyExc Response) =
        .error (.storeClientError "auth failed")
      ∧ Client.request (.error (.storeClientError "auth failed")) =
        .error (.commandError "auth failed"))
    ∧ ((.error (.osError "boom") : Except PyExc Response) = .error (.osError "boom")
      ∧ (∀ msg, PyExc.osError "boom" ≠ .storeClientError msg)
      ∧ Client.request (.error (.osError "boom")) = .error (.osError "boom")) :=
  ⟨⟨rfl, (request_error_translation (.error (.storeClientError "auth failed"))).1
      "auth failed" rfl⟩,
   ⟨rfl, fun _ h => PyExc.noConfusion h,
    (request_error_translation (.error (.osError "boom"))).2.1 (.osError "boom") rfl
      (fun _ h => PyExc.noConfusion h)⟩⟩

/-- C1: a successful storage response (`successful` equal to `true` with an
`upload_id` field) makes `push_file` return exactly the `upload_id` value. -/
theorem push_file_returns_upload_id (c : Client) (envKeys : List String)
    (version : String) (pf : PlatformFacts) (fileName boundaryCT : String)
    (r : Response) (result upload_id : Json)
    (hbody : r.jsonBody = some result)
    (hsucc : result.getItem "successful" = .ok (.bool true))
    (hid : result.getItem "upload_id" = .ok upload_id) :
    (Client.push_file c envKeys version pf fileName boundaryCT (.ok ()) (.ok r)).1
      = .ok upload_id := by
  simp only [Client.push_file, storage_push, Response.json, hbody,
    handleStorageResponse, hsucc, hid, Json.truthy, if_true]

theorem push_file_returns_upload_id_witness :
    ((⟨200, some sampleOkJson⟩ : Response).jsonBody = some sampleOkJson)
    ∧ sampleOkJson.getItem "successful" = .ok (.bool true)
    ∧ sampleOkJson.getItem "upload_id" = .ok (.str "abc123")
    ∧ (Client.push_file sampleClient ["HOME"] "1.2.0" samplePF "demo.charm"
        "multipart/form-data; boundary=x" (.ok ())
        (.ok ⟨200, some sampleOkJson⟩)).1 = .ok (.str "abc123") :=
  ⟨rfl, rfl, rfl,
    push_file_returns_upload_id sampleClient ["HOME"] "1.2.0" samplePF "demo.charm"
      "multipart/form-data; boundary=x" ⟨200, some sampleOkJson⟩ sampleOkJson
      (.str "abc123") rfl rfl rfl⟩

/-- C2: a storage response with `successful` false makes `push_file` fail
with a `CommandError` whose message contains the full rendered response
payload, and no upload id is returned. -/
theorem push_file_server_rejection (c : Client) (envKeys : List String)
    (version : String) (pf : PlatformFacts) (fileName boundaryCT : String)
    (r : Response) (result : Json)
    (hbody : r.jsonBody = some result)
    (hsucc : result.getItem "successful" = .ok (.bool false)) :
    (Client.push_file c envKeys version pf fileName boundaryCT (.ok ()) (.ok r)).1
      = .error (.commandError ("Server error while pushing file: " ++ result.pyRepr))
    ∧ (∃ pre post,
        "Server error while pushing file: " ++ result.pyRepr =
          pre ++ result.pyRepr ++ post)
    ∧ ∀ upload_id,
        (Client.push_file c envKeys version pf fileName boundaryCT (.ok ())
          (.ok r)).1 ≠ .ok upload_id := by
  have hrun : (Client.push_file c envKeys version pf fileName boundaryCT (.ok ())
      (.ok r)).1
      = .error (.commandError ("Server error while pushing file: " ++
          result.pyRepr)) := by
    simp only [Client.push_file, storage_push, Response.json, hbody,
      handleStorageResponse, hsucc, Json.truthy, if_false, Bool.false_eq_true,
      ite_false]
  refine ⟨hrun, ⟨"Server error while pushing file: ", "", by simp⟩, ?_⟩
  intro upload_id hcon
  rw [hrun] at hcon
  simp at hcon

theorem push_file_server_rejection_witness :
    ((⟨200, some sampleFailJson⟩ : Response).jsonBody = some sampleFailJson)
    ∧ sampleFailJson.getItem "successful" = .ok (.bool false)
    ∧ (Client.push_file sampleClient ["HOME"] "1.2.0" samplePF "demo.charm"
        "multipart/form-data; boundary=x" (.ok ())
        (.ok ⟨200, some sampleFailJson⟩)).1
      = .error (.commandError
          ("Server error while pushing file: " ++ sampleFailJson.pyRepr)) :=
  ⟨rfl, rfl,
    (push_file_server_rejection sampleClient ["HOME"] "1.2.0" samplePF "demo.charm"
      "multipart/form-data; boundary=x" ⟨200, some sampleFailJson⟩ sampleFailJson
      rfl rfl).1⟩

/-- C10: a storage response mapping without a `successful` key, or with
`successful` true but without an `upload_id` key, makes `push_file` fail with
a raw `KeyError`, not a normalized `CommandError`. -/
theorem push_file_missing_fields (c : Client) (envKeys : List String)
    (version : String) (pf : PlatformFacts) (fileName boundaryCT : String)
    (r : Response) (fields : List (String × Json))
    (hbody : r.jsonBody = some (.obj fields)) :
    (lookupField fields "successful" = none →
      (Client.push_file c envKeys version pf fileName boundaryCT (.ok ())
          (.ok r)).1 = .error (.keyError "successful")
      ∧ ∀ m, (Client.push_file c envKeys version pf fileName boundaryCT (.ok ())
          (.ok r)).1 ≠ .error (.commandError m))
    ∧ (lookupField fields "successful" = some (.bool true) →
      lookupField fields "upload_id" = none →
      (Client.push_file c envKeys version pf fileName boundaryCT (.ok ())
          (.ok r)).1 = .error (.keyError "upload_id")
      ∧ ∀ m, (Client.push_file c envKeys version pf fileName boundaryCT (.ok ())
          (.ok r)).1 ≠ .error (.commandError m)) := by
  constructor
  · intro hmiss
    have hrun : (Client.push_file c envKeys version pf fileName boundaryCT (.ok ())
        (.ok r)).1 = .error (.keyError "successful") := by
      simp only [Client.push_file, storage_push, Response.json, hbody,
        handleStorageResponse, Json.getItem, hmiss]
    refine ⟨hrun, ?_⟩
    intro m hcon
    rw [hrun] at hcon
    simp at hcon
  · intro hsucc hmiss
    have hrun : (Client.push_file c envKeys version pf fileName boundaryCT (.ok ())
        (.ok r)).1 = .error (.keyError "upload_id") := by
      simp only [Client.push_file, storage_push, Response.json, hbody,
        handleStorageResponse, Json.getItem, hsucc, hmiss, Json.truthy, if_true]
    refine ⟨hrun, ?_⟩
    intro m hcon
    rw [hrun] at hcon
    simp at hcon

theorem push_file_missing_fields_witness :
    ((⟨200, some (.obj [("upload_id", .str "x")])⟩ : Response).jsonBody
        = some (.obj [("upload_id", .str "x")]))
    ∧ lookupField [("upload_id", .str "x")] "successful" = none
    ∧ (Client.push_file sampleClient ["HOME"] "1.2.0" samplePF "demo.charm"
        "multipart/form-data; boundary=x" (.ok ())
        (.ok ⟨200, some (.obj [("upload_id", .str "x")])⟩)).1
      = .error (.keyError "successful")
    ∧ lookupField [("successful", Json.bool true)] "successful"
        = some (.bool true)
    ∧ lookupField [("successful", Json.bool true)] "upload_id" = none
    ∧ (Client.push_file sampleClient ["HOME"] "1.2.0" samplePF "demo.charm"
        "multipart/form-data; boundary=x" (.ok ())
        (.ok ⟨200, some (.obj [("successful", Json.bool true)])⟩)).1
      = .error (.keyError "upload_id") :=
  ⟨rfl, rfl,
    ((push_file_missing_fields sampleClient ["HOME"] "1.2.0" samplePF "demo.charm"
      "multipart/form-data; boundary=x" ⟨200, some (.obj [("upload_id", .str "x")])⟩
      [("upload_id", .str "x")] rfl).1 rfl).1,
    rfl, rfl,
    ((push_file_missing_fields sampleClient ["HOME"] "1.2.0" samplePF "demo.charm"
      "multipart/form-data; boundary=x"
      ⟨200, some (.obj [("successful", Json.bool true)])⟩
      [("successful", Json.bool true)] rfl).2 rfl rfl).1⟩

/-- C7: once the file is opened, `push_file` closes it on every exit path:
the event trace always ends with `closeFile` after `openFile`, whatever the
transfer outcome (success, rejection or exception). -/
theorem push_file_releases_file_handle (c : Client) (envKeys : List String)
    (version : String) (pf : PlatformFacts) (fileName boundaryCT : String)
    (postResult : Except PyExc Response) :
    ∃ req, (Client.push_file c envKeys version pf fileName boundaryCT (.ok ())
        postResult).2
      = [Ev.openFile, Ev.post req, Ev.closeFile] := by
  refine ⟨(storage_push boundaryCT "binary" c.storage_base_url envKeys version pf
    postResult).1, ?_⟩
  cases postResult with
  | error e => rfl
  | ok r =>
      obtain ⟨sc, body⟩ := r
      cases body <;> rfl

/-- C8: `push_file` issues exactly one POST, to
`storage_base_url ++ "/unscanned-upload/"`, with the multipart boundary
content type, `Accept: application/json`, the `build_user_agent` user agent
and the single `binary` multipart field; the response body is decoded as JSON
and handed to the response handler. -/
theorem push_file_post_contract (c : Client) (envKeys : List String)
    (version : String) (pf : PlatformFacts) (fileName boundaryCT : String)
    (postResult : Except PyExc Response) :
    (Client.push_file c envKeys version pf fileName boundaryCT (.ok ())
        postResult).2 =
      [Ev.openFile,
       Ev.post
         { url := c.storage_base_url ++ "/unscanned-upload/"
           contentType := boundaryCT
           accept := "application/json"
           userAgent := build_user_agent envKeys version pf
           fieldName := "binary" },
       Ev.closeFile]
    ∧ ∀ r result, postResult = .ok r → r.jsonBody = some result →
        (Client.push_file c envKeys version pf fileName boundaryCT (.ok ())
            postResult).1
          = handleStorageResponse result := by
  constructor
  · cases postResult with
    | error e => rfl
    | ok r =>
        obtain ⟨sc, body⟩ := r
        cases body <;> rfl
  · rintro r result rfl hbody
    obtain ⟨sc, body⟩ := r
    simp only at hbody
    subst hbody
    rfl

theorem push_file_post_contract_witness :
    ((.ok ⟨200, some sampleOkJson⟩ : Except PyExc Response)
        = .ok ⟨200, some sampleOkJson⟩)
    ∧ (⟨200, some sampleOkJson⟩ : Response).jsonBody = some sampleOkJson
    ∧ (Client.push_file sampleClient ["HOME"] "1.2.0" samplePF "demo.charm"
        "multipart/form-data; boundary=x" (.ok ())
        (.ok ⟨200, some sampleOkJson⟩)).1 = handleStorageResponse sampleOkJson :=
  ⟨rfl, rfl,
    (push_file_post_contract sampleClient ["HOME"] "1.2.0" samplePF "demo.charm"
      "multipart/form-data; boundary=x" (.ok ⟨200, some sampleOkJson⟩)).2
      ⟨200, some sampleOkJson⟩ sampleOkJson rfl rfl⟩

/-- C9: the constructor stores both base URLs with every trailing slash
removed: the stored value is a prefix of the input whose removed remainder is
all slashes, and it has no trailing slash itself. -/
theorem client_init_normalizes_urls (api_base_url storage_base_url_arg
    userConfigDir : String) (envKeys : List String) (version : String)
    (pf : PlatformFacts) :
    (∃ k, storage_base_url_arg.toList =
        (Client.init api_base_url storage_base_url_arg userConfigDir envKeys
            version pf).storage_base_url.toList ++
          List.replicate k (Char.ofNat 47))
    ∧ (Client.init api_base_url storage_base_url_arg userConfigDir envKeys
        version pf).storage_base_url.toList.getLast? ≠ some (Char.ofNat 47)
    ∧ (∃ k, api_base_url.toList =
        (Client.init api_base_url storage_base_url_arg userConfigDir envKeys
            version pf).session_base_url.toList ++
          List.replicate k (Char.ofNat 47))
    ∧ (Client.init api_base_url storage_base_url_arg userConfigDir envKeys
        version pf).session_base_url.toList.getLast? ≠ some (Char.ofNat 47) :=
  ⟨(rstripSlash_spec storage_base_url_arg).1,
   (rstripSlash_spec storage_base_url_arg).2,
   (rstripSlash_spec api_base_url).1,
   (rstripSlash_spec api_base_url).2⟩

end StoreClient
